import Mathlib

/-!
Shallow embedding of the Vulkan tutorial renderer (vulkan_app.cpp /
vulkan_utils.cpp) for checking its specification.  Machine `uint32_t`
values are modelled as `Nat` (with an explicit `% 2^32` where the source
can overflow), fallible calls as `Except String`, and the effectful frame
loop as an explicit trace of operations.
-/

set_option autoImplicit false

/-- The C++ `std::numeric_limits<uint32_t>::max()` sentinel. -/
def UINT32_MAX : Nat := 2 ^ 32 - 1

/-- The C++ `std::clamp(v, lo, hi)`: `lo` if `v < lo`, else `hi` if `hi < v`, else `v`. -/
def stdClamp (v lo hi : Nat) : Nat :=
  if v < lo then lo else if hi < v then hi else v

/-- `VkExtent2D`: a width/height pair of `uint32_t`. -/
structure VkExtent2D where
  width : Nat
  height : Nat
deriving DecidableEq, Repr

/-- The fields of `VkSurfaceCapabilitiesKHR` the program reads. -/
structure VkSurfaceCapabilitiesKHR where
  minImageCount : Nat
  maxImageCount : Nat
  currentExtent : VkExtent2D
  minImageExtent : VkExtent2D
  maxImageExtent : VkExtent2D
deriving DecidableEq, Repr

/-- `VkFormat`, collapsed to the one constant the program tests plus a code for the rest. -/
inductive VkFormat where
  | b8g8r8a8Srgb
  | otherFormat (code : Nat)
deriving DecidableEq, Repr

/-- `VkColorSpaceKHR`, collapsed to the one constant the program tests plus a code for the rest. -/
inductive VkColorSpaceKHR where
  | srgbNonlinear
  | otherColorSpace (code : Nat)
deriving DecidableEq, Repr

/-- `VkSurfaceFormatKHR`: a format / color-space pair. -/
structure VkSurfaceFormatKHR where
  format : VkFormat
  colorSpace : VkColorSpaceKHR
deriving DecidableEq, Repr

/-- `VkSharingMode`: the two sharing modes used by `createSwapChain`. -/
inductive VkSharingMode where
  | exclusive
  | concurrent
deriving DecidableEq, Repr

/-- `VkResult`, collapsed to `VK_SUCCESS` plus an error/status code for the rest. -/
inductive VkResult where
  | success
  | nonSuccess (code : Nat)
deriving DecidableEq, Repr

/-- `successCheck` (vulkan_utils.cpp:9-12): throw `onFailureMsg` on any non-success result. -/
def successCheck (result : VkResult) (onFailureMsg : String) : Except String Unit :=
  if result ≠ VkResult.success then Except.error onFailureMsg else Except.ok ()

/-- Swapchain image-count request of `createSwapChain` (vulkan_app.cpp:237-240):
`minImageCount + 1` (a `uint32_t` sum), lowered to `maxImageCount` when that bound is
nonzero and exceeded. -/
def swapImageCount (minImageCount maxImageCount : Nat) : Nat :=
  let imageCount := (minImageCount + 1) % 2 ^ 32
  if maxImageCount > 0 && imageCount > maxImageCount then maxImageCount else imageCount

/-- `chooseSwapExtent` (vulkan_utils.cpp:190-203): use `currentExtent` verbatim unless its
width is the `uint32_t` sentinel, in which case clamp the window framebuffer size
component-wise into `[minImageExtent, maxImageExtent]`. -/
def chooseSwapExtent (capabilities : VkSurfaceCapabilitiesKHR)
    (framebufferWidth framebufferHeight : Nat) : VkExtent2D :=
  if capabilities.currentExtent.width ≠ UINT32_MAX then
    capabilities.currentExtent
  else
    { width := stdClamp framebufferWidth capabilities.minImageExtent.width
        capabilities.maxImageExtent.width,
      height := stdClamp framebufferHeight capabilities.minImageExtent.height
        capabilities.maxImageExtent.height }

/-- `chooseSwapSurfaceFormat` (vulkan_utils.cpp:176-181): first available format equal to
`VK_FORMAT_B8G8R8A8_SRGB` with `VK_COLOR_SPACE_SRGB_NONLINEAR_KHR`, else a runtime error. -/
def chooseSwapSurfaceFormat (availableFormats : List VkSurfaceFormatKHR) :
    Except String VkSurfaceFormatKHR :=
  match availableFormats with
  | [] => Except.error "No valid swap surface format"
  | fmt :: rest =>
    if fmt.format = VkFormat.b8g8r8a8Srgb ∧ fmt.colorSpace = VkColorSpaceKHR.srgbNonlinear then
      Except.ok fmt
    else
      chooseSwapSurfaceFormat rest

/-- Sharing-mode selection of `createSwapChain` (vulkan_app.cpp:252-262), after both queue
family indices are resolved: concurrent with both indices listed when they differ,
exclusive with an empty list when equal. -/
def swapChainSharing (graphicsFamily presentFamily : Nat) : VkSharingMode × List Nat :=
  if graphicsFamily ≠ presentFamily then
    (VkSharingMode.concurrent, [graphicsFamily, presentFamily])
  else
    (VkSharingMode.exclusive, [])

/-- `checkDeviceExtensionSupport` (vulkan_utils.cpp:145-154): build an `std::set` of the
required names, erase every available name, and report whether the set is empty. -/
def checkDeviceExtensionSupport (availableExtensions : List String)
    (requiredExts : List String) : Bool :=
  let requiredExtensions :=
    requiredExts.foldl (fun s e => insert e s) (∅ : Finset String)
  let remaining :=
    availableExtensions.foldl (fun s e => s.erase e) requiredExtensions
  decide (remaining = ∅)

/-- One entry of the queue-family scan input: the graphics capability bit of
`queueFlags` and the surface-present support answer for that index. -/
structure VkQueueFamilyProperties where
  graphicsBit : Bool
  presentSupport : Bool
deriving DecidableEq, Repr

/-- `QueueFamilyIndices` (vulkan_utils.h:9-15). -/
structure QueueFamilyIndices where
  graphicsFamily : Option Nat
  presentFamily : Option Nat
deriving DecidableEq, Repr

/-- `QueueFamilyIndices::isComplete` (vulkan_utils.h:12-14). -/
def QueueFamilyIndices.isComplete (indices : QueueFamilyIndices) : Bool :=
  indices.graphicsFamily.isSome && indices.presentFamily.isSome

/-- Loop body of `findQueueFamilies` (vulkan_utils.cpp:118-133): assign each role on a
match (overwriting any earlier assignment), break once complete, else advance `i`. -/
def findQueueFamiliesGo (queueFamilies : List VkQueueFamilyProperties) (i : Nat)
    (indices : QueueFamilyIndices) : QueueFamilyIndices :=
  match queueFamilies with
  | [] => indices
  | queueFamily :: rest =>
    let indices :=
      if queueFamily.graphicsBit then { indices with graphicsFamily := some i } else indices
    let indices :=
      if queueFamily.presentSupport then { indices with presentFamily := some i } else indices
    if indices.isComplete then indices
    else findQueueFamiliesGo rest (i + 1) indices

/-- `findQueueFamilies` (vulkan_utils.cpp:110-135). -/
def findQueueFamilies (queueFamilies : List VkQueueFamilyProperties) : QueueFamilyIndices :=
  findQueueFamiliesGo queueFamilies 0 ⟨none, none⟩

/-- Number of families the scan examines before breaking, given which roles are already
assigned: the scan consumes entries until both roles have been seen. -/
def scannedLen (queueFamilies : List VkQueueFamilyProperties)
    (hasGraphics hasPresent : Bool) : Nat :=
  match queueFamilies with
  | [] => 0
  | queueFamily :: rest =>
    let hasGraphics := hasGraphics || queueFamily.graphicsBit
    let hasPresent := hasPresent || queueFamily.presentSupport
    1 + (if hasGraphics && hasPresent then 0 else scannedLen rest hasGraphics hasPresent)

/-- Index of the last entry of `l` (numbered from `i`) satisfying `p`, defaulting to `acc`. -/
def lastMatchIdx (p : VkQueueFamilyProperties → Bool)
    (l : List VkQueueFamilyProperties) (i : Nat) (acc : Option Nat) : Option Nat :=
  match l with
  | [] => acc
  | queueFamily :: rest =>
    lastMatchIdx p rest (i + 1) (if p queueFamily then some i else acc)

/-- Reference description of the scan result: each role holds the index of the last
matching family within the scanned prefix (the prefix ends right after the first family
that completes both roles, or at the end of the list). -/
def findQueueFamiliesRef (queueFamilies : List VkQueueFamilyProperties) :
    QueueFamilyIndices :=
  let n := scannedLen queueFamilies false false
  ⟨lastMatchIdx (fun f => f.graphicsBit) (queueFamilies.take n) 0 none,
   lastMatchIdx (fun f => f.presentSupport) (queueFamilies.take n) 0 none⟩

/-- `VkPhysicalDeviceType`, collapsed to the constant the program tests plus a code. -/
inductive VkPhysicalDeviceType where
  | discreteGpu
  | otherDeviceType (code : Nat)
deriving DecidableEq, Repr

/-- A physical device, modelled by the answers the program queries from it. -/
structure VkPhysicalDevice where
  deviceType : VkPhysicalDeviceType
  geometryShader : Bool
  availableExtensions : List String
  capabilities : VkSurfaceCapabilitiesKHR
  formats : List VkSurfaceFormatKHR
  presentModes : List Nat
  queueFamilies : List VkQueueFamilyProperties
deriving DecidableEq, Repr

/-- `SwapChainSupportDetails` (vulkan_utils.h:17-24). -/
structure SwapChainSupportDetails where
  capabilities : VkSurfaceCapabilitiesKHR
  formats : List VkSurfaceFormatKHR
  presentModes : List Nat
deriving DecidableEq, Repr

/-- `SwapChainSupportDetails::swapChainSupported` (vulkan_utils.h:21-23). -/
def SwapChainSupportDetails.swapChainSupported (details : SwapChainSupportDetails) : Bool :=
  !details.formats.isEmpty && !details.presentModes.isEmpty

/-- `querySwapChainSupport` (vulkan_utils.cpp:156-174): read capabilities, formats and
present modes of the device/surface pair. -/
def querySwapChainSupport (device : VkPhysicalDevice) : SwapChainSupportDetails :=
  ⟨device.capabilities, device.formats, device.presentModes⟩

/-- `isDeviceSuitable` (vulkan_utils.cpp:89-108): discrete GPU with geometry shader,
required extensions supported, swapchain support queried only if still suitable, and a
complete queue-family result. -/
def isDeviceSuitable (device : VkPhysicalDevice) (requiredExts : List String) : Bool :=
  let suitable := true
  let suitable := suitable &&
    (decide (device.deviceType = VkPhysicalDeviceType.discreteGpu) && device.geometryShader)
  let suitable := suitable && checkDeviceExtensionSupport device.availableExtensions requiredExts
  let suitable :=
    if suitable then suitable && (querySwapChainSupport device).swapChainSupported
    else suitable
  let suitable := suitable && (findQueueFamilies device.queueFamilies).isComplete
  suitable

/-- The selection loop of `pickPhysicalDevice` (vulkan_app.cpp:184-189): first suitable
device in enumeration order, if any. -/
def firstSuitableDevice (devices : List VkPhysicalDevice) (requiredExts : List String) :
    Option VkPhysicalDevice :=
  match devices with
  | [] => none
  | device :: rest =>
    if isDeviceSuitable device requiredExts then some device
    else firstSuitableDevice rest requiredExts

/-- `pickPhysicalDevice` (vulkan_app.cpp:177-192): error when zero devices are
enumerated, else the first suitable device, else a distinct error when none qualify. -/
def pickPhysicalDevice (devices : List VkPhysicalDevice) (requiredExts : List String) :
    Except String VkPhysicalDevice :=
  if devices.length = 0 then Except.error "Failed to find GPUs with Vulkan support"
  else
    match firstSuitableDevice devices requiredExts with
    | some device => Except.ok device
    | none => Except.error "Failed to find suitable GPU"

/-- `VkDeviceQueueCreateInfo`: the fields `createLogicalDevice` fills per request. -/
structure VkDeviceQueueCreateInfo where
  queueFamilyIndex : Nat
  queueCount : Nat
  queuePriority : ℚ
deriving DecidableEq, Repr

/-- The `std::set<uint32_t>` of the two resolved family indices
(vulkan_app.cpp:197), iterated in sorted order. -/
def uniqueQueueFamilySet (graphicsFamily presentFamily : Nat) : List Nat :=
  if graphicsFamily = presentFamily then [graphicsFamily]
  else if graphicsFamily < presentFamily then [graphicsFamily, presentFamily]
  else [presentFamily, graphicsFamily]

/-- Queue-creation requests built by `createLogicalDevice` (vulkan_app.cpp:196-208, and
identically src/unnamed/part_000:169-181): one request is pushed per element of the set
of the two family indices, but every request's `queueFamilyIndex` is set from
`indices.graphicsFamily.value()` (line 204) — the loop variable `queueFamily` is unused. -/
def createLogicalDeviceQueueInfos (graphicsFamily presentFamily : Nat) :
    List VkDeviceQueueCreateInfo :=
  (uniqueQueueFamilySet graphicsFamily presentFamily).map
    (fun _queueFamily =>
      { queueFamilyIndex := graphicsFamily, queueCount := 1, queuePriority := 1 })

/-- The results the driver returns to the three fallible calls of one `drawFrame`. -/
structure FrameCallResults where
  acquireResult : VkResult
  submitResult : VkResult
  presentResult : VkResult
deriving DecidableEq, Repr

/-- Result handling of `drawFrame` (vulkan_app.cpp:535-568): the result of
`vkAcquireNextImageKHR` (line 540) is discarded, the result of `vkQueueSubmit` goes
through `successCheck` (lines 556-557), and the result of `vkQueuePresentKHR`
(line 567) is discarded. -/
def drawFrame (results : FrameCallResults) : Except String Unit := do
  let _acquire := results.acquireResult
  successCheck results.submitResult "Failed to submit draw command buffer"
  let _present := results.presentResult
  pure ()

/-- `VK_FENCE_CREATE_SIGNALED_BIT`. -/
def VK_FENCE_CREATE_SIGNALED_BIT : Nat := 1

/-- Fence create flags used by `createSyncObjects` (vulkan_app.cpp:577-580). -/
def inFlightFenceCreateFlags : Nat := VK_FENCE_CREATE_SIGNALED_BIT

/-- The operations of the frame loop that the synchronization claims talk about. -/
inductive FrameOp where
  | waitFence
  | resetFence
  | acquireImage
  | resetCommandBuffer
  | recordCommands
  | submitQueue
  | presentImage
deriving DecidableEq, Repr

/-- Operation order of one `drawFrame` call (vulkan_app.cpp:535-568). -/
def drawFrameTrace : List FrameOp :=
  [FrameOp.waitFence, FrameOp.resetFence, FrameOp.acquireImage,
   FrameOp.resetCommandBuffer, FrameOp.recordCommands,
   FrameOp.submitQueue, FrameOp.presentImage]

/-- Trace of the main loop (vulkan_app.cpp:168-175) running `n` frames. -/
def mainLoopTrace : Nat → List FrameOp
  | 0 => []
  | n + 1 => drawFrameTrace ++ mainLoopTrace n

/-- Fence state over a trace: `waitFence` deadlocks (`none`) iff the fence is unsignaled
and no earlier submission is pending to signal it (the submit carrying the fence
re-signals it on completion, and the wait has an unbounded timeout, so a pending
submission always lets the wait return); `resetFence` unsignals. -/
def runFence : List FrameOp → Bool → Option Bool
  | [], signaled => some signaled
  | op :: rest, signaled =>
    match op with
    | FrameOp.waitFence => if signaled then runFence rest signaled else none
    | FrameOp.resetFence => runFence rest false
    | FrameOp.submitQueue => runFence rest true
    | _ => runFence rest signaled

/-- The format/color-space pair `chooseSwapSurfaceFormat` insists on
(`VK_FORMAT_B8G8R8A8_SRGB`, `VK_COLOR_SPACE_SRGB_NONLINEAR_KHR`). -/
def preferredSurfaceFormat : VkSurfaceFormatKHR :=
  ⟨VkFormat.b8g8r8a8Srgb, VkColorSpaceKHR.srgbNonlinear⟩

/-- A concrete device passing every suitability test, used to evaluate the embedding. -/
def sampleSuitableDevice : VkPhysicalDevice :=
  { deviceType := VkPhysicalDeviceType.discreteGpu
    geometryShader := true
    availableExtensions := []
    capabilities := ⟨2, 3, ⟨800, 600⟩, ⟨1, 1⟩, ⟨2000, 2000⟩⟩
    formats := [preferredSurfaceFormat]
    presentModes := [0]
    queueFamilies := [⟨true, true⟩] }

/-- A concrete device failing the discrete-GPU test, used to evaluate the embedding. -/
def sampleUnsuitableDevice : VkPhysicalDevice :=
  { deviceType := VkPhysicalDeviceType.otherDeviceType 0
    geometryShader := false
    availableExtensions := []
    capabilities := ⟨2, 3, ⟨800, 600⟩, ⟨1, 1⟩, ⟨2000, 2000⟩⟩
    formats := []
    presentModes := []
    queueFamilies := [] }

theorem stdClamp_eq_max_min (v lo hi : Nat) (h : lo ≤ hi) :
    stdClamp v lo hi = max lo (min v hi) := by
  unfold stdClamp
  split_ifs <;> omega

/-- C5: the requested swapchain image count is `minImageCount + 1`, lowered to
`maxImageCount` exactly when that bound is nonzero and exceeded; in particular
(min 2, max 3) gives 3 unclamped and (min 3, max 3) gives 3 clamped. -/
theorem swapImageCount_spec :
    (∀ minImageCount maxImageCount : Nat, minImageCount + 1 < 2 ^ 32 →
      swapImageCount minImageCount maxImageCount =
        if 0 < maxImageCount ∧ maxImageCount < minImageCount + 1 then maxImageCount
        else minImageCount + 1) ∧
    swapImageCount 2 3 = 3 ∧ swapImageCount 3 3 = 3 := by
  refine ⟨?_, by decide, by decide⟩
  intro minc maxc h
  simp only [swapImageCount, Nat.mod_eq_of_lt h]
  split_ifs with h1 h2 h2 <;> simp_all

theorem swapImageCount_spec_witness :
    swapImageCount 2 3 = if 0 < 3 ∧ 3 < 2 + 1 then 3 else 2 + 1 :=
  swapImageCount_spec.1 2 3 (by decide)

/-- C6: extent selection returns `currentExtent` verbatim unless its width is the
all-bits-set sentinel, in which case the framebuffer size is clamped component-wise
into `[minImageExtent, maxImageExtent]`; with the sentinel, framebuffer (1024, 768)
and bounds (1,1)-(2000,2000) give (1024, 768), and a concrete currentExtent
(800, 600) is returned as is for every framebuffer size. -/
theorem chooseSwapExtent_spec :
    (∀ (caps : VkSurfaceCapabilitiesKHR) (w h : Nat),
      caps.currentExtent.width ≠ UINT32_MAX →
      chooseSwapExtent caps w h = caps.currentExtent) ∧
    (∀ (caps : VkSurfaceCapabilitiesKHR) (w h : Nat),
      caps.currentExtent.width = UINT32_MAX →
      caps.minImageExtent.width ≤ caps.maxImageExtent.width →
      caps.minImageExtent.height ≤ caps.maxImageExtent.height →
      chooseSwapExtent caps w h =
        ⟨max caps.minImageExtent.width (min w caps.maxImageExtent.width),
         max caps.minImageExtent.height (min h caps.maxImageExtent.height)⟩) ∧
    chooseSwapExtent ⟨2, 3, ⟨UINT32_MAX, UINT32_MAX⟩, ⟨1, 1⟩, ⟨2000, 2000⟩⟩ 1024 768 =
      ⟨1024, 768⟩ ∧
    (∀ w h : Nat,
      chooseSwapExtent ⟨2, 3, ⟨800, 600⟩, ⟨1, 1⟩, ⟨2000, 2000⟩⟩ w h = ⟨800, 600⟩) := by
  refine ⟨?_, ?_, ?_, ?_⟩
  · intro caps w h hs
    simp [chooseSwapExtent, hs]
  · intro caps w h hs hw hh
    simp only [chooseSwapExtent, hs, ne_eq, not_true_eq_false, if_false,
      stdClamp_eq_max_min _ _ _ hw, stdClamp_eq_max_min _ _ _ hh]
  · decide
  · intro w h
    simp [chooseSwapExtent, UINT32_MAX]

theorem chooseSwapExtent_spec_witness :
    chooseSwapExtent ⟨2, 3, ⟨UINT32_MAX, UINT32_MAX⟩, ⟨1, 1⟩, ⟨2000, 2000⟩⟩ 500 900 =
      ⟨max 1 (min 500 2000), max 1 (min 900 2000)⟩ :=
  chooseSwapExtent_spec.2.1 ⟨2, 3, ⟨UINT32_MAX, UINT32_MAX⟩, ⟨1, 1⟩, ⟨2000, 2000⟩⟩
    500 900 rfl (by decide) (by decide)

/-- C7: swapchain sharing is exclusive with an empty queue-family list when the
graphics and present families coincide, and concurrent listing exactly the two
indices when they differ. -/
theorem swapChainSharing_spec :
    ∀ graphicsFamily presentFamily : Nat,
      (graphicsFamily = presentFamily →
        swapChainSharing graphicsFamily presentFamily = (VkSharingMode.exclusive, [])) ∧
      (graphicsFamily ≠ presentFamily →
        swapChainSharing graphicsFamily presentFamily =
          (VkSharingMode.concurrent, [graphicsFamily, presentFamily])) := by
  intro g p
  constructor
  · intro h
    simp [swapChainSharing, h]
  · intro h
    simp [swapChainSharing, h]

theorem swapChainSharing_spec_witness :
    swapChainSharing 2 2 = (VkSharingMode.exclusive, []) ∧
    swapChainSharing 0 1 = (VkSharingMode.concurrent, [0, 1]) :=
  ⟨(swapChainSharing_spec 2 2).1 rfl, (swapChainSharing_spec 0 1).2 (by decide)⟩

/-- C8: format selection returns the preferred BGRA-sRGB/non-linear pair whenever the
list contains it, and otherwise fails with the no-acceptable-format error — there is
no fallback to any other format. -/
theorem chooseSwapSurfaceFormat_spec :
    ∀ availableFormats : List VkSurfaceFormatKHR,
      (preferredSurfaceFormat ∈ availableFormats →
        chooseSwapSurfaceFormat availableFormats = Except.ok preferredSurfaceFormat) ∧
      (preferredSurfaceFormat ∉ availableFormats →
        chooseSwapSurfaceFormat availableFormats =
          Except.error "No valid swap surface format") := by
  intro l
  induction l with
  | nil => simp [chooseSwapSurfaceFormat]
  | cons fmt rest ih =>
    by_cases hc : fmt.format = VkFormat.b8g8r8a8Srgb ∧
      fmt.colorSpace = VkColorSpaceKHR.srgbNonlinear
    · have hf : fmt = preferredSurfaceFormat := by
        obtain ⟨f, c⟩ := fmt
        obtain ⟨h1, h2⟩ := hc
        simp only at h1 h2
        rw [preferredSurfaceFormat, h1, h2]
      constructor
      · intro _
        rw [chooseSwapSurfaceFormat, if_pos hc, hf]
      · intro hmem
        exact absurd (hf ▸ List.mem_cons_self fmt rest) hmem
    · have hf : fmt ≠ preferredSurfaceFormat := by
        intro h
        rw [h] at hc
        exact hc ⟨rfl, rfl⟩
      constructor
      · intro hmem
        rw [chooseSwapSurfaceFormat, if_neg hc]
        rcases List.mem_cons.mp hmem with h | h
        · exact absurd h.symm hf
        · exact ih.1 h
      · intro hmem
        rw [chooseSwapSurfaceFormat, if_neg hc]
        exact ih.2 (fun h => hmem (List.mem_cons_of_mem _ h))

theorem chooseSwapSurfaceFormat_spec_witness :
    chooseSwapSurfaceFormat [⟨VkFormat.otherFormat 44, VkColorSpaceKHR.srgbNonlinear⟩,
        preferredSurfaceFormat] = Except.ok preferredSurfaceFormat ∧
    chooseSwapSurfaceFormat [⟨VkFormat.otherFormat 44, VkColorSpaceKHR.srgbNonlinear⟩] =
      Except.error "No valid swap surface format" :=
  ⟨(chooseSwapSurfaceFormat_spec _).1 (by simp),
   (chooseSwapSurfaceFormat_spec _).2 (by simp [preferredSurfaceFormat])⟩

theorem mem_foldl_insert (l : List String) (s : Finset String) (x : String) :
    x ∈ l.foldl (fun s e => insert e s) s ↔ x ∈ s ∨ x ∈ l := by
  induction l generalizing s with
  | nil => simp
  | cons a l ih =>
    simp only [List.foldl_cons, ih, Finset.mem_insert, List.mem_cons]
    tauto

theorem mem_foldl_erase (l : List String) (s : Finset String) (x : String) :
    x ∈ l.foldl (fun s e => s.erase e) s ↔ x ∈ s ∧ x ∉ l := by
  induction l generalizing s with
  | nil => simp
  | cons a l ih =>
    simp only [List.foldl_cons, ih, Finset.mem_erase, List.mem_cons]
    tauto

theorem checkDeviceExtensionSupport_true_iff
    (availableExtensions requiredExts : List String) :
    checkDeviceExtensionSupport availableExtensions requiredExts = true ↔
      ∀ r ∈ requiredExts, r ∈ availableExtensions := by
  unfold checkDeviceExtensionSupport
  simp only [decide_eq_true_eq]
  rw [Finset.eq_empty_iff_forall_not_mem]
  constructor
  · intro h r hr
    by_contra hav
    exact h r ((mem_foldl_erase _ _ _).mpr ⟨(mem_foldl_insert _ _ _).mpr (Or.inr hr), hav⟩)
  · intro h x hx
    obtain ⟨hx1, hx2⟩ := (mem_foldl_erase _ _ _).mp hx
    rcases (mem_foldl_insert _ _ _).mp hx1 with h0 | h0
    · simp at h0
    · exact hx2 (h x h0)

/-- C10: `checkDeviceExtensionSupport` returns true iff every required extension name
appears among the available extension names, and in particular returns true for an
empty required list. -/
theorem checkDeviceExtensionSupport_spec :
    ∀ availableExtensions requiredExts : List String,
      (checkDeviceExtensionSupport availableExtensions requiredExts = true ↔
        ∀ r ∈ requiredExts, r ∈ availableExtensions) ∧
      checkDeviceExtensionSupport availableExtensions [] = true := by
  intro avail req
  exact ⟨checkDeviceExtensionSupport_true_iff avail req,
    (checkDeviceExtensionSupport_true_iff avail []).mpr (by simp)⟩

theorem checkDeviceExtensionSupport_spec_witness :
    checkDeviceExtensionSupport ["VK_KHR_swapchain"] ["VK_KHR_swapchain"] = true :=
  (checkDeviceExtensionSupport_spec ["VK_KHR_swapchain"] ["VK_KHR_swapchain"]).1.mpr
    (by simp)

/-- C1: with graphics family 0 and present family 1, `createLogicalDevice` builds two
queue-creation requests but both carry `queueFamilyIndex` 0 — no request targets the
present family, because vulkan_app.cpp:204 reads `indices.graphicsFamily.value()`
instead of the loop variable `queueFamily`. Each request does ask for one queue at
priority 1.0. -/
theorem createLogicalDeviceQueueInfos_bug :
    createLogicalDeviceQueueInfos 0 1 =
      [{ queueFamilyIndex := 0, queueCount := 1, queuePriority := 1 },
       { queueFamilyIndex := 0, queueCount := 1, queuePriority := 1 }] ∧
    ∀ info ∈ createLogicalDeviceQueueInfos 0 1, info.queueFamilyIndex ≠ 1 := by
  refine ⟨rfl, ?_⟩
  decide

/-- C3 counterexample: a frame in which image acquire and queue present both return
non-success while submit succeeds runs to completion without raising any error, so
non-success acquire and present results are silently ignored
(vulkan_app.cpp:540 and 567 discard those results). -/
theorem drawFrame_counterexample :
    drawFrame ⟨VkResult.nonSuccess 1, VkResult.success, VkResult.nonSuccess 2⟩ =
      Except.ok () := rfl

/-- C3 amended: in every frame-loop iteration only the queue-submit result is checked —
`drawFrame` raises the fatal submit error exactly when submit returns non-success, and
completes normally whatever the acquire and present results are. -/
theorem drawFrame_spec :
    ∀ results : FrameCallResults,
      (results.submitResult = VkResult.success → drawFrame results = Except.ok ()) ∧
      (results.submitResult ≠ VkResult.success →
        drawFrame results = Except.error "Failed to submit draw command buffer") := by
  intro results
  obtain ⟨a, s, p⟩ := results
  constructor
  · intro h
    simp only at h
    subst h
    rfl
  · intro h
    simp only at h
    cases s with
    | success => exact absurd rfl h
    | nonSuccess code => rfl

theorem drawFrame_spec_witness :
    drawFrame ⟨VkResult.success, VkResult.success, VkResult.success⟩ = Except.ok () ∧
    drawFrame ⟨VkResult.success, VkResult.nonSuccess 3, VkResult.success⟩ =
      Except.error "Failed to submit draw command buffer" :=
  ⟨(drawFrame_spec _).1 rfl, (drawFrame_spec _).2 (by decide)⟩

theorem runFence_drawFrameTrace (l : List FrameOp) :
    runFence (drawFrameTrace ++ l) true = runFence l true := rfl

/-- C9: the in-flight fence is created in the signaled state; each `drawFrame`
performs exactly one fence wait, then one fence reset, before the submit that
re-signals the fence; over `n` frames the loop performs exactly `n` waits and `n`
resets, and starting from the created-signaled state no wait deadlocks (in particular
not the first). -/
theorem frameLoopFence_spec :
    inFlightFenceCreateFlags &&& VK_FENCE_CREATE_SIGNALED_BIT ≠ 0 ∧
    drawFrameTrace.count FrameOp.waitFence = 1 ∧
    drawFrameTrace.count FrameOp.resetFence = 1 ∧
    drawFrameTrace.indexOf FrameOp.waitFence < drawFrameTrace.indexOf FrameOp.resetFence ∧
    drawFrameTrace.indexOf FrameOp.resetFence <
      drawFrameTrace.indexOf FrameOp.submitQueue ∧
    ∀ n : Nat,
      (mainLoopTrace n).count FrameOp.waitFence = n ∧
      (mainLoopTrace n).count FrameOp.resetFence = n ∧
      runFence (mainLoopTrace n)
        (decide (inFlightFenceCreateFlags &&& VK_FENCE_CREATE_SIGNALED_BIT ≠ 0)) =
        some true := by
  refine ⟨by decide, by decide, by decide, by decide, by decide, ?_⟩
  intro n
  rw [show (decide (inFlightFenceCreateFlags &&& VK_FENCE_CREATE_SIGNALED_BIT ≠ 0))
    = true from by decide]
  induction n with
  | zero => exact ⟨rfl, rfl, rfl⟩
  | succ n ih =>
    obtain ⟨ih1, ih2, ih3⟩ := ih
    have hw : drawFrameTrace.count FrameOp.waitFence = 1 := by decide
    have hr : drawFrameTrace.count FrameOp.resetFence = 1 := by decide
    refine ⟨?_, ?_, ?_⟩
    · rw [show mainLoopTrace (n + 1) = drawFrameTrace ++ mainLoopTrace n from rfl,
        List.count_append, ih1, hw]
      omega
    · rw [show mainLoopTrace (n + 1) = drawFrameTrace ++ mainLoopTrace n from rfl,
        List.count_append, ih2, hr]
      omega
    · rw [show mainLoopTrace (n + 1) = drawFrameTrace ++ mainLoopTrace n from rfl,
        runFence_drawFrameTrace]
      exact ih3

theorem frameLoopFence_spec_witness :
    runFence (mainLoopTrace 3)
      (decide (inFlightFenceCreateFlags &&& VK_FENCE_CREATE_SIGNALED_BIT ≠ 0)) =
      some true :=
  (frameLoopFence_spec.2.2.2.2.2 3).2.2

theorem findQueueFamiliesGo_eq (l : List VkQueueFamilyProperties) :
    ∀ (i : Nat) (og op : Option Nat),
      findQueueFamiliesGo l i ⟨og, op⟩ =
        ⟨lastMatchIdx (fun f => f.graphicsBit)
            (l.take (scannedLen l og.isSome op.isSome)) i og,
         lastMatchIdx (fun f => f.presentSupport)
            (l.take (scannedLen l og.isSome op.isSome)) i op⟩ := by
  induction l with
  | nil => intro i og op; rfl
  | cons f rest ih =>
    intro i og op
    cases hg : f.graphicsBit <;> cases hp : f.presentSupport <;>
      cases og <;> cases op <;>
      simp_all [findQueueFamiliesGo, scannedLen, lastMatchIdx,
        QueueFamilyIndices.isComplete, Nat.one_add, List.take_succ_cons]

theorem findQueueFamiliesGo_isSome (l : List VkQueueFamilyProperties) :
    ∀ (i : Nat) (og op : Option Nat),
      ((findQueueFamiliesGo l i ⟨og, op⟩).graphicsFamily.isSome
          = (og.isSome || l.any (fun f => f.graphicsBit))) ∧
      ((findQueueFamiliesGo l i ⟨og, op⟩).presentFamily.isSome
          = (op.isSome || l.any (fun f => f.presentSupport))) := by
  induction l with
  | nil => intro i og op; simp [findQueueFamiliesGo]
  | cons f rest ih =>
    intro i og op
    cases hg : f.graphicsBit <;> cases hp : f.presentSupport <;>
      cases og <;> cases op <;>
      simp_all [findQueueFamiliesGo, QueueFamilyIndices.isComplete]

theorem lastMatchIdx_spec (p : VkQueueFamilyProperties → Bool)
    (l : List VkQueueFamilyProperties) :
    ∀ (i : Nat) (acc : Option Nat) (j : Nat),
      lastMatchIdx p l i acc = some j →
      acc = some j ∨ ∃ k, ∃ hk : k < l.length, j = i + k ∧ p (l.get ⟨k, hk⟩) = true := by
  induction l with
  | nil => intro i acc j h; exact Or.inl h
  | cons f rest ih =>
    intro i acc j h
    rw [lastMatchIdx] at h
    rcases ih (i + 1) _ j h with hacc | ⟨k, hk, hjk, hpk⟩
    · by_cases hpf : p f = true
      · rw [if_pos hpf] at hacc
        injection hacc with hij
        refine Or.inr ⟨0, by simp, by omega, ?_⟩
        simpa using hpf
      · rw [if_neg hpf] at hacc
        exact Or.inl hacc
    · refine Or.inr ⟨k + 1, by simpa using Nat.succ_lt_succ hk, by omega, ?_⟩
      simpa using hpk

/-- C2 counterexample: with family 0 graphics-only and family 1 graphics-and-present,
the scan returns graphics index 1 even though family 0 already satisfies the graphics
predicate — the complete result does not assign the lowest satisfying index. -/
theorem findQueueFamilies_counterexample :
    (findQueueFamilies [⟨true, false⟩, ⟨true, true⟩]).isComplete = true ∧
    ([⟨true, false⟩, ⟨true, true⟩] : List VkQueueFamilyProperties)[0].graphicsBit = true ∧
    (findQueueFamilies [⟨true, false⟩, ⟨true, true⟩]).graphicsFamily = some 1 := by
  decide

/-- C2 amended: `findQueueFamilies` scans in index order and stops as soon as both
roles are assigned; the result is complete iff some family has the graphics bit and
some family has present support; each assigned role holds a valid index whose family
satisfies that role's predicate, namely the index of the *last* matching family within
the scanned prefix (`findQueueFamiliesRef`) — not necessarily the lowest matching
index, since later matches before the stop overwrite earlier ones. -/
theorem findQueueFamilies_spec :
    ∀ queueFamilies : List VkQueueFamilyProperties,
      findQueueFamilies queueFamilies = findQueueFamiliesRef queueFamilies ∧
      ((findQueueFamilies queueFamilies).isComplete = true ↔
        queueFamilies.any (fun f => f.graphicsBit) = true ∧
        queueFamilies.any (fun f => f.presentSupport) = true) ∧
      (∀ g, (findQueueFamilies queueFamilies).graphicsFamily = some g →
        ∃ hg : g < queueFamilies.length,
          (queueFamilies.get ⟨g, hg⟩).graphicsBit = true) ∧
      (∀ q, (findQueueFamilies queueFamilies).presentFamily = some q →
        ∃ hq : q < queueFamilies.length,
          (queueFamilies.get ⟨q, hq⟩).presentSupport = true) := by
  intro l
  refine ⟨?_, ?_, ?_, ?_⟩
  · rw [findQueueFamilies, findQueueFamiliesGo_eq l 0 none none]
    rfl
  · rw [findQueueFamilies]
    have h := findQueueFamiliesGo_isSome l 0 none none
    rw [QueueFamilyIndices.isComplete, h.1, h.2]
    simp
  · intro g hg
    rw [findQueueFamilies, findQueueFamiliesGo_eq l 0 none none] at hg
    simp only at hg
    rcases lastMatchIdx_spec _ _ 0 none g hg with h | ⟨k, hk, hjk, hpk⟩
    · exact absurd h (by simp)
    · have hk2 : k < l.length := Nat.lt_of_lt_of_le hk (List.length_take_le' _ _)
      have hgk : g = k := by omega
      rw [hgk]
      have hconv : ((l.take (scannedLen l none.isSome none.isSome)).get ⟨k, hk⟩)
          = l.get ⟨k, hk2⟩ := by
        simp [List.get_eq_getElem]
      exact ⟨hk2, by rw [← hconv]; exact hpk⟩
  · intro q hq
    rw [findQueueFamilies, findQueueFamiliesGo_eq l 0 none none] at hq
    simp only at hq
    rcases lastMatchIdx_spec _ _ 0 none q hq with h | ⟨k, hk, hjk, hpk⟩
    · exact absurd h (by simp)
    · have hk2 : k < l.length := Nat.lt_of_lt_of_le hk (List.length_take_le' _ _)
      have hqk : q = k := by omega
      rw [hqk]
      have hconv : ((l.take (scannedLen l none.isSome none.isSome)).get ⟨k, hk⟩)
          = l.get ⟨k, hk2⟩ := by
        simp [List.get_eq_getElem]
      exact ⟨hk2, by rw [← hconv]; exact hpk⟩

theorem findQueueFamilies_spec_witness :
    ∃ hg : 0 < ([⟨true, true⟩] : List VkQueueFamilyProperties).length,
      (([⟨true, true⟩] : List VkQueueFamilyProperties).get ⟨0, hg⟩).graphicsBit = true :=
  (findQueueFamilies_spec [⟨true, true⟩]).2.2.1 0 (by decide)

theorem firstSuitableDevice_eq_none (devices : List VkPhysicalDevice)
    (requiredExts : List String)
    (h : ∀ d ∈ devices, isDeviceSuitable d requiredExts = false) :
    firstSuitableDevice devices requiredExts = none := by
  induction devices with
  | nil => rfl
  | cons d rest ih =>
    rw [firstSuitableDevice, if_neg]
    · exact ih (fun x hx => h x (List.mem_cons_of_mem _ hx))
    · simp [h d (List.mem_cons_self d rest)]

theorem firstSuitableDevice_eq_get (devices : List VkPhysicalDevice)
    (requiredExts : List String) :
    ∀ (i : Nat) (h : i < devices.length),
      isDeviceSuitable (devices.get ⟨i, h⟩) requiredExts = true →
      (∀ (j : Nat) (hj : j < i),
        isDeviceSuitable (devices.get ⟨j, Nat.lt_trans hj h⟩) requiredExts = false) →
      firstSuitableDevice devices requiredExts = some (devices.get ⟨i, h⟩) := by
  induction devices with
  | nil =>
    intro i h
    exact absurd h (by simp)
  | cons d rest ih =>
    intro i h hi hprev
    cases i with
    | zero =>
      have hd : isDeviceSuitable d requiredExts = true := by simpa using hi
      rw [firstSuitableDevice, if_pos hd]
      simp
    | succ k =>
      have hd : isDeviceSuitable d requiredExts = false := by
        simpa using hprev 0 (Nat.succ_pos k)
      rw [firstSuitableDevice, if_neg (by simp [hd])]
      have hk : k < rest.length := Nat.lt_of_succ_lt_succ h
      have hres := ih k hk (by simpa using hi) (fun j hj => by
        simpa using hprev (j + 1) (Nat.succ_lt_succ hj))
      simpa using hres

/-- C4: physical-device selection fails with the no-device error exactly when zero
devices are enumerated; with a nonempty list and no suitable candidate it fails with
the distinct no-suitable-device error; and whenever index `i` is the first index whose
device is suitable, selection returns exactly that device. -/
theorem pickPhysicalDevice_spec :
    ∀ (devices : List VkPhysicalDevice) (requiredExts : List String),
      (pickPhysicalDevice devices requiredExts =
          Except.error "Failed to find GPUs with Vulkan support" ↔ devices = []) ∧
      (devices ≠ [] → (∀ d ∈ devices, isDeviceSuitable d requiredExts = false) →
        pickPhysicalDevice devices requiredExts =
          Except.error "Failed to find suitable GPU") ∧
      (∀ (i : Nat) (h : i < devices.length),
        isDeviceSuitable (devices.get ⟨i, h⟩) requiredExts = true →
        (∀ (j : Nat) (hj : j < i),
          isDeviceSuitable (devices.get ⟨j, Nat.lt_trans hj h⟩) requiredExts = false) →
        pickPhysicalDevice devices requiredExts = Except.ok (devices.get ⟨i, h⟩)) := by
  intro devices req
  refine ⟨⟨?_, ?_⟩, ?_, ?_⟩
  · intro h
    by_contra hne
    rw [pickPhysicalDevice, if_neg (by simp [hne])] at h
    cases hfs : firstSuitableDevice devices req with
    | some d =>
      rw [hfs] at h
      exact Except.noConfusion h
    | none =>
      rw [hfs] at h
      simp only [Except.error.injEq] at h
      exact absurd h (by decide)
  · intro h
    subst h
    rfl
  · intro hne hall
    rw [pickPhysicalDevice, if_neg (by simp [hne]),
      firstSuitableDevice_eq_none devices req hall]
  · intro i h hi hprev
    have hne : devices ≠ [] := by
      intro e
      subst e
      simp at h
    rw [pickPhysicalDevice, if_neg (by simp [hne]),
      firstSuitableDevice_eq_get devices req i h hi hprev]

theorem pickPhysicalDevice_spec_witness :
    pickPhysicalDevice [sampleUnsuitableDevice, sampleSuitableDevice] [] =
      Except.ok (([sampleUnsuitableDevice, sampleSuitableDevice] :
        List VkPhysicalDevice).get ⟨1, Nat.le.refl⟩) :=
  (pickPhysicalDevice_spec [sampleUnsuitableDevice, sampleSuitableDevice] []).2.2 1
    Nat.le.refl (by decide) (fun j hj => by
      have h0 : j = 0 := by omega
      subst h0
      show isDeviceSuitable (([sampleUnsuitableDevice, sampleSuitableDevice] :
        List VkPhysicalDevice).get ⟨0, Nat.succ_pos 1⟩) [] = false
      decide)
